import Mathlib

/-
Verification of the LinkedIn Easy Apply bot
(`automation ai/linkedin_easy_apply_improved.py` and `automation ai/automation.py`).

The Python code is shallowly embedded: pure string logic is translated
directly; browser/LLM interactions are modelled by oracles (functions that
supply, per call, the observation the DOM or the API would have produced).
Strings are modelled over their character lists with hand-rolled structural
helpers so that every definition evaluates by kernel reduction.
-/

/-- Model of the Python substring test `needle in hay` restricted to a check
that `needle` occurs at the head of `hay`. -/
def listStarts : List Char → List Char → Bool
  | [], _ => true
  | _ :: _, [] => false
  | a :: as, b :: bs => a == b && listStarts as bs

/-- Model of the Python substring test `needle in hay` on character lists:
true when `needle` occurs contiguously inside `hay` (the empty needle is
always found, as in Python). -/
def listHasSub (needle : List Char) : List Char → Bool
  | [] => needle.isEmpty
  | c :: rest => listStarts needle (c :: rest) || listHasSub needle rest

/-- Model of the Python expression `needle in hay` for strings. -/
def strContains (hay needle : String) : Bool :=
  listHasSub needle.data hay.data

/-- The whitespace characters stripped by Python `str.strip()`
(space, tab, newline, carriage return, vertical tab, form feed). -/
def isSpaceChar (c : Char) : Bool :=
  c == ' ' || c == '\t' || c == '\n' || c == '\r' || c == '\x0b' || c == '\x0c'

/-- Model of Python `str.strip()`: drop whitespace from both ends. -/
def pyStrip (s : String) : String :=
  String.mk (((s.data.dropWhile isSpaceChar).reverse.dropWhile isSpaceChar).reverse)

/-- ASCII lower-casing of one character (model of Python `str.lower()`
restricted to ASCII, which covers every keyword the bot compares against). -/
def lowerChar (c : Char) : Char :=
  if 'A' ≤ c ∧ c ≤ 'Z' then Char.ofNat (c.toNat + 32) else c

/-- Model of Python `str.lower()` (ASCII fragment). -/
def pyLower (s : String) : String :=
  String.mk (s.data.map lowerChar)

/-- ASCII digit test. -/
def isDigitChar (c : Char) : Bool :=
  '0' ≤ c && c ≤ '9'

/-- Model of Python `str.isdigit()` (ASCII fragment): nonempty and all
characters are digits. -/
def py_isdigit (s : String) : Bool :=
  !s.data.isEmpty && s.data.all isDigitChar

/-- Model of Python `s.replace(",", " -")` as used on job titles and company
names in `main` of linkedin_easy_apply_improved.py (lines 776-777). -/
def replaceComma (s : String) : String :=
  String.mk (s.data.foldr (fun c acc => if c = ',' then ' ' :: '-' :: acc else c :: acc) [])

/-- Embedding of `get_smart_fallback` (linkedin_easy_apply_improved.py,
lines 111-130): keyword groups are tested in source order against the
lower-cased question. -/
def get_smart_fallback (question : String) : String :=
  let q_lower := pyLower question
  if ["year", "experience", "salary", "number"].any (fun w => strContains q_lower w) then "0"
  else if ["authorized", "eligible", "legal"].any (fun w => strContains q_lower w) then "Yes"
  else if ["sponsor", "visa", "h1b"].any (fun w => strContains q_lower w) then "No"
  else if ["relocate", "move", "willing"].any (fun w => strContains q_lower w) then "Yes"
  else if ["start", "available", "notice"].any (fun w => strContains q_lower w) then "Immediately"
  else if ["degree", "education", "university"].any (fun w => strContains q_lower w) then "Bachelor\x27s Degree"
  else if ["cover letter", "why", "interest"].any (fun w => strContains q_lower w) then
    "I am excited about this opportunity and believe my skills align well with the requirements."
  else "Yes"

/-- Case-insensitive keyword membership, as the specification claim phrases
it: the keyword is searched in the question with both sides lower-cased. -/
def ciContains (q w : String) : Bool :=
  strContains (pyLower q) (pyLower w)

/-- The fallback function exactly as the claim describes it: a fixed
priority order of case-insensitive keyword groups, each yielding a fixed
answer, with default answer "Yes". -/
def smart_fallback_claim (q : String) : String :=
  if ["year", "experience", "salary", "number"].any (fun w => ciContains q w) then "0"
  else if ["authorized", "eligible", "legal"].any (fun w => ciContains q w) then "Yes"
  else if ["sponsor", "visa", "h1b"].any (fun w => ciContains q w) then "No"
  else if ["relocate", "move", "willing"].any (fun w => ciContains q w) then "Yes"
  else if ["start", "available", "notice"].any (fun w => ciContains q w) then "Immediately"
  else if ["degree", "education", "university"].any (fun w => ciContains q w) then "Bachelor\x27s Degree"
  else if ["cover letter", "why", "interest"].any (fun w => ciContains q w) then
    "I am excited about this opportunity and believe my skills align well with the requirements."
  else "Yes"

/-- One attempt of the retry loop of `answer_text_with_retry`
(linkedin_easy_apply_improved.py, lines 132-158).  The oracle maps the
attempt number to `some content` when the OpenAI call of that attempt
returns `content`, and to `none` when the attempt raises an exception.
`fuel` counts the attempts still allowed by `range(max_retries)`. -/
def answer_attempt_loop (oracle : Nat → Option String) (q : String)
    (max_retries : Nat) : Nat → Nat → String
  | _, 0 => get_smart_fallback q
  | attempt, fuel + 1 =>
    match oracle attempt with
    | some content => pyStrip content
    | none =>
      if attempt + 1 = max_retries then get_smart_fallback q
      else answer_attempt_loop oracle q max_retries (attempt + 1) fuel

/-- Embedding of `answer_text_with_retry` (linkedin_easy_apply_improved.py,
lines 132-158): up to `max_retries` attempts starting at attempt 0; a
successful attempt returns its stripped content, and exhausting the attempts
returns `get_smart_fallback q`. -/
def answer_text_with_retry (oracle : Nat → Option String) (q : String)
    (max_retries : Nat) : String :=
  answer_attempt_loop oracle q max_retries 0 max_retries

/-- Embedding of the `input[type=number]` branch of `process_form_fields`
(linkedin_easy_apply_improved.py, lines 408-436): the value written into an
empty number field, as a function of the section label and of the oracle
driving the language-model attempts. -/
def number_field_answer (oracle : Nat → Option String) (label : String) : String :=
  if ["year", "experience", "salary"].any (fun w => strContains (pyLower label) w) then "0"
  else
    let ans := answer_text_with_retry oracle label 3
    if py_isdigit ans then ans else "0"

/-- Embedding of `is_field_empty` (linkedin_easy_apply_improved.py, lines
103-109).  `readValue` is `none` when `field.input_value()` raises (the
function then answers `true`) and `some v` when it returns `v`. -/
def is_field_empty (readValue : Option String) : Bool :=
  match readValue with
  | none => true
  | some v => pyStrip v == ""

/-- The select branch of `process_form_fields` (lines 322-348) fills a
select only when its current value is blank after stripping: the guard
`if current_value.strip(): continue`. -/
def select_should_fill (current_value : String) : Bool :=
  pyStrip current_value == ""

/-- The number and text branches of `process_form_fields` (lines 408-467)
fill an input only when `is_field_empty` holds: the guard
`if not is_field_empty(fld): continue`. -/
def input_should_fill (readValue : Option String) : Bool :=
  is_field_empty readValue

/-- One `input[type=radio]` element of a form section: its `name`
attribute, whether it is currently checked, and the text of its associated
`label[for=...]` element when one exists. -/
structure RadioInput where
  name : String
  checked : Bool
  label : Option String

/-- Embedding of the radio loop of `process_form_fields` (lines 353-403):
iterating over the radios in document order with the `processed_groups`
set, it returns the names of the groups for which the code goes on to
gather labels and fill an answer.  A group is skipped exactly when the
first radio of that group encountered in the iteration is itself checked
(`if radio.is_checked(): continue`). -/
def radio_groups_filled : List RadioInput → List String → List String
  | [], _ => []
  | r :: rest, processed =>
    if processed.contains r.name then radio_groups_filled rest processed
    else if r.checked then radio_groups_filled rest (r.name :: processed)
    else r.name :: radio_groups_filled rest (r.name :: processed)

/-- Whether the first radio of group `name` in document order is checked
(the only pre-selection test `process_form_fields` performs). -/
def first_radio_checked (radios : List RadioInput) (name : String) : Bool :=
  match radios.find? (fun r => r.name == name) with
  | some r => r.checked
  | none => false

/-- Whether any radio of group `name` is checked, i.e. whether the group
already has a selection. -/
def group_has_checked (radios : List RadioInput) (name : String) : Bool :=
  radios.any (fun r => r.name == name && r.checked)

/-- The radio that `process_form_fields` clicks for a group (lines
389-399): the first group radio whose label element exists and whose
lower-cased label text contains the lower-cased choice. -/
def radio_fill_target_aux (choice : String) : List RadioInput → Nat → Option Nat
  | [], _ => none
  | r :: rest, i =>
    match r.label with
    | some l =>
      if strContains (pyLower l) (pyLower choice) then some i
      else radio_fill_target_aux choice rest (i + 1)
    | none => radio_fill_target_aux choice rest (i + 1)

/-- Index of the radio of `groupRadios` that the fill step checks for a
given answer `choice`, if any. -/
def radio_fill_target (groupRadios : List RadioInput) (choice : String) : Option Nat :=
  radio_fill_target_aux choice groupRadios 0

/-- Embedding of `get_modal_state` (linkedin_easy_apply_improved.py, lines
292-315).  `raises` models the outer `except` (result "unknown_state");
`headerTexts` are the inner texts of the `h1, h2, h3, h4` elements;
`buttonTexts` are the inner texts of the buttons, `none` for a button whose
text read raises.  Only the first five buttons are read; blank texts are
dropped; the remaining texts are joined with "|". -/
def joinBar : List String → String
  | [] => ""
  | [s] => s
  | s :: rest => s ++ "|" ++ joinBar rest

def get_modal_state (raises : Bool) (headerTexts : List String)
    (buttonTexts : List (Option String)) : String :=
  if raises then "unknown_state"
  else
    let header_text := match headerTexts with
      | [] => ""
      | h :: _ => pyStrip h
    let button_texts := (buttonTexts.take 5).filterMap (fun b =>
      match b with
      | none => none
      | some t => let t2 := pyStrip t; if t2 == "" then none else some t2)
    header_text ++ "::" ++ joinBar button_texts

/-- The navigation-button kinds that `find_navigation_button` (lines
258-290) can report, in its priority order submit, review, next. -/
inductive NavType
  | submit
  | review
  | next

/-- An observable action performed on the page by one iteration of the
modal loop: filling a form field, clicking a navigation button, clicking a
cancel/dismiss button, or pressing Escape. -/
inductive ModalAction
  | fillField
  | clickNav (t : NavType)
  | clickCancel
  | pressEscape

/-- What the DOM and the libraries yield to one iteration of the loop of
`process_modal_with_timeout` (lines 481-581):
`visRaises`: `modal.is_visible()` raises (caught at line 579);
`visible`: the value of `modal.is_visible()` otherwise;
`headerTexts`, `buttonTexts`, `stateRaises`: inputs of `get_modal_state`;
`headerRaises`: reading the header at lines 495-498 raises;
`fieldFills`: how many fields `process_form_fields` fills over the
sections of a questions page;
`nav`: the result of `find_navigation_button`;
`navClickRaises`: `nav_btn.click()` raises;
`cancelClosed`: some cancel selector finds a visible button. -/
structure ModalObs where
  visRaises : Bool
  visible : Bool
  headerTexts : List String
  buttonTexts : List (Option String)
  stateRaises : Bool
  headerRaises : Bool
  fieldFills : Nat
  nav : Option NavType
  navClickRaises : Bool
  cancelClosed : Bool

/-- The value `get_modal_state(modal)` computes in an iteration that
observes `o`. -/
def modalState (o : ModalObs) : String :=
  get_modal_state o.stateRaises o.headerTexts o.buttonTexts

/-- The `header_text` of lines 495-498: first header's inner text,
stripped and lower-cased, or "" when there is no header. -/
def modalHeader (o : ModalObs) : String :=
  match o.headerTexts with
  | [] => ""
  | h :: _ => pyLower (pyStrip h)

/-- Keywords of the contact/resume branch (line 502). -/
def contactKeywords : List String := ["contact info", "resume", "cv"]

/-- Keywords of the questions branch (line 513). -/
def questionKeywords : List String :=
  ["question", "education", "work", "additional", "experience"]

/-- Result of one loop iteration: `stop r acts` ends the loop (by `break`,
`return True`, or an exception) with return value `r` and the actions the
iteration performed; `cont st acts` reaches a `continue` after recording
modal state `st` and performing `acts`. -/
inductive StepOut
  | stop (r : Bool) (acts : List ModalAction)
  | cont (st : String) (acts : List ModalAction)

/-- One iteration of the body of the loop of `process_modal_with_timeout`
(lines 481-581), given the observation `o` and the states `seen` recorded
by earlier iterations. -/
def modalStep (o : ModalObs) (seen : List String) : StepOut :=
  if o.visRaises then StepOut.stop false []
  else if !o.visible then StepOut.stop false []
  else if seen.contains (modalState o) then StepOut.stop false []
  else if o.headerRaises then StepOut.stop false []
  else
    let h := modalHeader o
    if contactKeywords.any (fun k => strContains h k) then
      match o.nav with
      | some NavType.next =>
        if o.navClickRaises then StepOut.stop false [ModalAction.clickNav NavType.next]
        else StepOut.cont (modalState o) [ModalAction.clickNav NavType.next]
      | some NavType.review =>
        if o.navClickRaises then StepOut.stop false [ModalAction.clickNav NavType.review]
        else StepOut.cont (modalState o) [ModalAction.clickNav NavType.review]
      | some NavType.submit => StepOut.stop false []
      | none => StepOut.stop false []
    else if questionKeywords.any (fun k => strContains h k) then
      let fills := List.replicate o.fieldFills ModalAction.fillField
      match o.nav with
      | some t =>
        if o.navClickRaises then StepOut.stop false (fills ++ [ModalAction.clickNav t])
        else
          match t with
          | NavType.submit => StepOut.stop true (fills ++ [ModalAction.clickNav NavType.submit])
          | NavType.review => StepOut.cont (modalState o) (fills ++ [ModalAction.clickNav NavType.review])
          | NavType.next => StepOut.cont (modalState o) (fills ++ [ModalAction.clickNav NavType.next])
      | none => StepOut.stop false fills
    else
      match o.nav with
      | some t =>
        if o.navClickRaises then StepOut.stop false [ModalAction.clickNav t]
        else
          match t with
          | NavType.submit => StepOut.stop true [ModalAction.clickNav NavType.submit]
          | NavType.review => StepOut.cont (modalState o) [ModalAction.clickNav NavType.review]
          | NavType.next => StepOut.cont (modalState o) [ModalAction.clickNav NavType.next]
      | none =>
        if o.cancelClosed then StepOut.stop false [ModalAction.clickCancel]
        else StepOut.stop false [ModalAction.pressEscape]

/-- The loop of `process_modal_with_timeout` (lines 481-581).  `obs k` is
the observation of the iteration entered with `loop_count = k + 1`;
`elapsed k` is `time.monotonic() - start_time` (in whole seconds) at the
k-th evaluation of the loop guard; `fuel` is `max_loops` minus the number
of iterations already executed, so the guard `loop_count < max_loops` is
`fuel > 0`.  The result pairs the returned boolean with the per-iteration
action lists. -/
def runModal (obs : Nat → ModalObs) (elapsed : Nat → Nat) (dur : Nat) :
    Nat → Nat → List String → Bool × List (List ModalAction)
  | 0, _, _ => (false, [])
  | fuel + 1, k, seen =>
    if elapsed k < dur then
      match modalStep (obs k) seen with
      | StepOut.stop r acts => (r, [acts])
      | StepOut.cont st acts =>
        let rest := runModal obs elapsed dur fuel (k + 1) (st :: seen)
        (rest.1, acts :: rest.2)
    else (false, [])

/-- Embedding of `process_modal_with_timeout` (lines 474-589):
`start_time` is taken, `seen_states` starts empty, `loop_count` at 0 with
`max_loops = 20`, and the loop runs; the function returns `False` unless
an iteration returned `True` after clicking a submit button. -/
def process_modal_with_timeout (obs : Nat → ModalObs) (elapsed : Nat → Nat)
    (max_duration : Nat) : Bool × List (List ModalAction) :=
  runModal obs elapsed max_duration 20 0 []

/-- `MODAL_TIMEOUT = int(os.getenv("MODAL_TIMEOUT", "300"))`
(linkedin_easy_apply_improved.py, line 32), with the environment modelled
as the already-parsed optional value. -/
def MODAL_TIMEOUT_value (envValue : Option Nat) : Nat :=
  envValue.getD 300

/-- The default of the `max_duration` parameter of
`process_modal_with_timeout` (line 474). -/
def process_modal_default_max_duration : Nat := 300

/-- The `max_duration` that the call site in `main` (line 758,
`process_modal_with_timeout(modal, page)`) actually passes: the call
supplies only two positional arguments, so the parameter takes its
default regardless of the environment. -/
def main_modal_call_max_duration (_envValue : Option Nat) : Nat :=
  process_modal_default_max_duration

/-- The data of one job card that the loop of `main`
(linkedin_easy_apply_improved.py, lines 672-798) extracts before building
a result row. -/
structure JobInfo where
  title : String
  company : String
  link : String
  timestamp : String
  runtime : String
  success : Bool

/-- The possible outcomes of one iteration of the job loop of `main`:
the first four are the `continue` paths (card no longer available, no
modal found, exception while processing the application, exception in the
outer body); only `completed` appends a result row. -/
inductive JobStep
  | cardGone
  | noModal
  | appError
  | outerError
  | completed (info : JobInfo)

/-- The row `main` of linkedin_easy_apply_improved.py appends to `results`
(lines 779-786): six keyed fields, with commas in title and company
replaced by " -" and Status derived from the boolean outcome. -/
def improved_row (info : JobInfo) : List (String × String) :=
  [("Title", replaceComma info.title),
   ("Company", replaceComma info.company),
   ("Link", info.link),
   ("DateApplied", info.timestamp),
   ("Runtime", info.runtime),
   ("Status", if info.success then "Success" else "Incomplete")]

/-- The optional row contributed by one job-loop iteration. -/
def jobRow : JobStep → Option (List (String × String))
  | JobStep.completed info => some (improved_row info)
  | _ => none

/-- The job loop of `main` (lines 664 and 672): it iterates over
`range(total)` with `total = min(count, MAX_APPLIES)` and collects the
rows appended to `results`. -/
def runJobs (steps : Nat → JobStep) (count maxApplies : Nat) :
    List (List (String × String)) :=
  (List.range (min count maxApplies)).filterMap (fun i => jobRow (steps i))

/-- The `fieldnames` of the CSV writer of linkedin_easy_apply_improved.py
(line 800). -/
def improved_fieldnames : List String :=
  ["Title", "Company", "Link", "DateApplied", "Runtime", "Status"]

/-- The `fieldnames` of the CSV writer of automation.py (line 370). -/
def automation_fieldnames : List String :=
  ["Title", "Company", "Link", "DateApplied", "Runtime"]

/-- The row `main` of automation.py appends to `results` (lines 359-365):
five keyed fields, with no Status field. -/
def automation_row (title company link timestamp runtime : String) :
    List (String × String) :=
  [("Title", title),
   ("Company", company),
   ("Link", link),
   ("DateApplied", timestamp),
   ("Runtime", runtime)]

/-- The CSV-writing epilogue of both `main` functions
(linkedin_easy_apply_improved.py lines 800-807, automation.py lines
370-376): check `os.path.isfile`, open in append mode (which creates a
missing file and otherwise keeps the content), write the header row only
when the file did not exist, then append the rows.  `existing` is `none`
when the file does not exist and `some content` otherwise; the result is
the file content after the run. -/
def runCsvWrite (existing : Option (List (List String))) (header : List String)
    (rows : List (List String)) : List (List String) :=
  let file_exists := existing.isSome
  let content := existing.getD []
  let withHeader := if file_exists then content else content ++ [header]
  withHeader ++ rows

/-- A fixed observation used to instantiate the modal-loop theorems on a
concrete input: a visible questions page with a Next button. -/
def obsQuestionsNext : ModalObs :=
  ⟨false, true, ["Questions about work"], [some "Next"], false, false, 1,
   some NavType.next, false, false⟩

/-- A fixed completed-job outcome used to instantiate the job-loop theorem
on a concrete input. -/
def jobInfoSample : JobInfo :=
  ⟨"title", "co", "link", "date", "3 sec", true⟩


/-- Helper: the modal loop executes at most `fuel` iterations. -/
theorem runModal_len_le (obs : Nat → ModalObs) (elapsed : Nat → Nat) (dur : Nat) :
    ∀ fuel k seen, (runModal obs elapsed dur fuel k seen).2.length ≤ fuel := by
  intro fuel
  induction fuel with
  | zero => intro k seen; simp [runModal]
  | succ n ih =>
    intro k seen
    rw [runModal]
    by_cases h : elapsed k < dur
    · rw [if_pos h]
      cases hstep : modalStep (obs k) seen with
      | stop r acts => simp
      | cont st acts =>
        have := ih (k + 1) (st :: seen)
        simpa using Nat.succ_le_succ this
    · rw [if_neg h]; simp

/-- Helper: once the elapsed time at the guard check of index `k + j`
reaches the duration, at most `j` further iterations run from index `k`. -/
theorem runModal_timeout_le (obs : Nat → ModalObs) (elapsed : Nat → Nat) (dur : Nat) :
    ∀ fuel k seen j, dur ≤ elapsed (k + j) →
      (runModal obs elapsed dur fuel k seen).2.length ≤ j := by
  intro fuel
  induction fuel with
  | zero => intro k seen j _; simp [runModal]
  | succ n ih =>
    intro k seen j hj
    rw [runModal]
    by_cases h : elapsed k < dur
    · rw [if_pos h]
      match j with
      | 0 =>
        exfalso
        have : dur ≤ elapsed k := by simpa using hj
        omega
      | j' + 1 =>
        cases hstep : modalStep (obs k) seen with
        | stop r acts => simp
        | cont st acts =>
          have hrec : (runModal obs elapsed dur n (k + 1) (st :: seen)).2.length ≤ j' := by
            apply ih
            have : k + 1 + j' = k + (j' + 1) := by omega
            rw [this]; exact hj
          simpa using Nat.succ_le_succ hrec
    · rw [if_neg h]; simp

/-- Claim C1: every invocation of `process_modal_with_timeout` terminates:
it executes at most `max_loops = 20` iterations; as soon as the elapsed
monotonic time at a loop-guard check reaches `max_duration`, no further
iteration is entered (so at most `k` iterations run when the elapsed time
at the k-th check has reached `max_duration`); and the function always
yields a boolean result. -/
theorem modal_loop_terminates (obs : Nat → ModalObs) (elapsed : Nat → Nat)
    (max_duration : Nat) :
    (process_modal_with_timeout obs elapsed max_duration).2.length ≤ 20 ∧
    (∀ k, max_duration ≤ elapsed k →
      (process_modal_with_timeout obs elapsed max_duration).2.length ≤ k) ∧
    ((process_modal_with_timeout obs elapsed max_duration).1 = true ∨
      (process_modal_with_timeout obs elapsed max_duration).1 = false) := by
  refine ⟨runModal_len_le obs elapsed max_duration 20 0 [], ?_, ?_⟩
  · intro k hk
    apply runModal_timeout_le obs elapsed max_duration 20 0 [] k
    simpa using hk
  · cases h : (process_modal_with_timeout obs elapsed max_duration).1
    · right; rfl
    · left; rfl

/-- Witness for C1: with a clock advancing one second per check and a
5-second budget, a run on a concrete endless questions page executes at
most 5 iterations. -/
theorem modal_loop_terminates_wit :
    (process_modal_with_timeout (fun _ => obsQuestionsNext) (fun n => n) 5).2.length ≤ 5 :=
  (modal_loop_terminates (fun _ => obsQuestionsNext) (fun n => n) 5).2.1 5 (by decide)

/-- Claim C2: within one invocation, no modal state is processed twice.
`seen` is the list of states recorded by the earlier iterations (the
`seen_states` set that `runModal` threads).  Whenever the loop guard passes
and the current iteration's `get_modal_state` value is already in `seen`,
the loop stops at once with that iteration performing no action at all —
no field fill and no button click — and the function returns `False`. -/
theorem modal_duplicate_state_stops (obs : Nat → ModalObs) (elapsed : Nat → Nat)
    (dur fuel k : Nat) (seen : List String)
    (hfuel : fuel ≠ 0) (htime : elapsed k < dur)
    (hvr : (obs k).visRaises = false) (hv : (obs k).visible = true)
    (hdup : seen.contains (modalState (obs k)) = true) :
    runModal obs elapsed dur fuel k seen = (false, [[]]) := by
  match fuel, hfuel with
  | n + 1, _ =>
    rw [runModal, if_pos htime]
    have hstep : modalStep (obs k) seen = StepOut.stop false [] := by
      rw [modalStep, if_neg (by simp [hvr]), if_neg (by simp [hv]), if_pos hdup]
    rw [hstep]

/-- Witness for C2: on a concrete questions page whose state string was
already recorded, the loop stops immediately with no actions. -/
theorem modal_duplicate_state_stops_wit :
    runModal (fun _ => obsQuestionsNext) (fun _ => 0) 1 20 0
      [modalState obsQuestionsNext] = (false, [[]]) :=
  modal_duplicate_state_stops (fun _ => obsQuestionsNext) (fun _ => 0) 1 20 0
    [modalState obsQuestionsNext] (by decide) (by decide) (by decide) (by decide)
    (by decide)

/-- Claim C3 (code bug): with `MODAL_TIMEOUT=60` in the environment, the
configured value is 60, but the timeout that `main`'s call actually
enforces on modal processing is the hard-coded default 300: line 758
passes no `max_duration` argument (and swaps the `page` and `modal`
arguments), so the environment value is never used. -/
theorem modal_timeout_env_ignored :
    MODAL_TIMEOUT_value (some 60) = 60 ∧
    main_modal_call_max_duration (some 60) = 300 ∧
    main_modal_call_max_duration (some 60) ≠ MODAL_TIMEOUT_value (some 60) := by
  refine ⟨rfl, rfl, ?_⟩
  decide

/-- Claim C4: `answer_text_with_retry` with 3 attempts is a total function
(the embedding returns a string on every input, modelling that the Python
function never raises); when every attempt raises it returns
`get_smart_fallback q`, and when attempt `i < 3` is the first to succeed
with `content` it returns the stripped `content`. -/
theorem answer_text_retry_spec (oracle : Nat → Option String) (q content : String)
    (i : Nat) :
    ((∀ j, j < 3 → oracle j = none) →
      answer_text_with_retry oracle q 3 = get_smart_fallback q) ∧
    (i < 3 → oracle i = some content → (∀ j, j < i → oracle j = none) →
      answer_text_with_retry oracle q 3 = pyStrip content) := by
  constructor
  · intro h
    have h0 := h 0 (by omega)
    have h1 := h 1 (by omega)
    have h2 := h 2 (by omega)
    simp [answer_text_with_retry, answer_attempt_loop, h0, h1, h2]
  · intro hi hok hprev
    interval_cases i
    · simp [answer_text_with_retry, answer_attempt_loop, hok]
    · have h0 := hprev 0 (by omega)
      simp [answer_text_with_retry, answer_attempt_loop, h0, hok]
    · have h0 := hprev 0 (by omega)
      have h1 := hprev 1 (by omega)
      simp [answer_text_with_retry, answer_attempt_loop, h0, h1, hok]

/-- Witness for C4: a concrete oracle failing on attempt 0 and succeeding
on attempt 1 yields the stripped attempt-1 answer. -/
theorem answer_text_retry_spec_wit :
    answer_text_with_retry (fun j => if j == 1 then some "  ok  " else none) "q" 3 =
      pyStrip "  ok  " :=
  (answer_text_retry_spec (fun j => if j == 1 then some "  ok  " else none)
      "q" "  ok  " 1).2 (by decide) (by decide)
    (by intro j hj; interval_cases j; rfl)

/-- Claim C5, counterexample: the row that `main` of automation.py records
has only five fields — there is no Status field — so not every row
recorded to the output file has the six claimed fields. -/
theorem automation_row_not_six_fields :
    (automation_row "t" "c" "l" "d" "r").map Prod.fst ≠
      ["Title", "Company", "Link", "DateApplied", "Runtime", "Status"] ∧
    ((automation_row "t" "c" "l" "d" "r").map Prod.fst).length = 5 := by
  constructor
  · decide
  · rfl

/-- Claim C5, amended: every row recorded by
linkedin_easy_apply_improved.py has exactly the six fields Title, Company,
Link, DateApplied, Runtime, Status in that order, matching its CSV writer's
fieldnames; every row recorded by automation.py has exactly the five fields
Title, Company, Link, DateApplied, Runtime in that order, matching its CSV
writer's fieldnames. -/
theorem row_fields_match (info : JobInfo) (t c l d r : String) :
    (improved_row info).map Prod.fst = improved_fieldnames ∧
    (automation_row t c l d r).map Prod.fst = automation_fieldnames :=
  ⟨rfl, rfl⟩

/-- Claim C6: recording outcomes is append-only.  Whatever the file held
before the run is an unchanged prefix of the file afterwards, and the part
appended by the run is the result rows, preceded by the header row exactly
when the file did not exist before opening. -/
theorem csv_append_only_spec (existing : Option (List (List String)))
    (header : List String) (rows : List (List String)) :
    ∃ t, runCsvWrite existing header rows = existing.getD [] ++ t ∧
      t = if existing.isSome then rows else header :: rows := by
  cases existing with
  | none => exact ⟨header :: rows, by simp [runCsvWrite], by simp⟩
  | some old => exact ⟨rows, by simp [runCsvWrite], by simp⟩

/-- Claim C7: the job loop of `main` iterates over exactly
`min(count, MAX_APPLIES)` indices, each iteration contributes at most one
row, so the recorded rows number at most `MAX_APPLIES` (and at most
`count`), and every recorded row comes from one attempted application:
a completed iteration at an index below `min(count, MAX_APPLIES)`. -/
theorem jobs_rows_bounded (steps : Nat → JobStep) (count maxApplies : Nat) :
    (runJobs steps count maxApplies).length ≤ maxApplies ∧
    (runJobs steps count maxApplies).length ≤ min count maxApplies ∧
    (∀ r, r ∈ runJobs steps count maxApplies →
      ∃ i, i < min count maxApplies ∧ jobRow (steps i) = some r) := by
  have hlen : (runJobs steps count maxApplies).length ≤ min count maxApplies := by
    calc (runJobs steps count maxApplies).length
        ≤ (List.range (min count maxApplies)).length :=
          List.length_filterMap_le _ _
      _ = min count maxApplies := List.length_range _
  refine ⟨le_trans hlen (Nat.min_le_right _ _), hlen, ?_⟩
  intro r hr
  rcases List.mem_filterMap.mp hr with ⟨i, hi, hrow⟩
  exact ⟨i, List.mem_range.mp hi, hrow⟩

/-- Witness for C7: with one job card and a limit of five, the single
recorded row comes from the completed application at index 0. -/
theorem jobs_rows_bounded_wit :
    ∃ i, i < min 1 5 ∧
      jobRow ((fun _ => JobStep.completed jobInfoSample) i) =
        some (improved_row jobInfoSample) :=
  (jobs_rows_bounded (fun _ => JobStep.completed jobInfoSample) 1 5).2.2
    (improved_row jobInfoSample) (by decide)

/-- Claim C8: `get_smart_fallback` is a total function of the question
string, equal on every input to the claimed fixed-priority case-insensitive
keyword classification (with default answer "Yes"). -/
theorem smart_fallback_matches_claim (q : String) :
    get_smart_fallback q = smart_fallback_claim q := rfl

/-- Claim C9: the string filled into an empty `input[type=number]` field
consists only of digits; it is "0" whenever the label contains "year",
"experience" or "salary", and "0" whenever the language-model answer is not
an all-digit string; otherwise it is exactly that all-digit answer. -/
theorem number_fill_only_digits (oracle : Nat → Option String) (label : String) :
    py_isdigit (number_field_answer oracle label) = true ∧
    (["year", "experience", "salary"].any
        (fun w => strContains (pyLower label) w) = true →
      number_field_answer oracle label = "0") ∧
    (py_isdigit (answer_text_with_retry oracle label 3) = false →
      number_field_answer oracle label = "0") ∧
    (["year", "experience", "salary"].any
        (fun w => strContains (pyLower label) w) = false →
      py_isdigit (answer_text_with_retry oracle label 3) = true →
      number_field_answer oracle label = answer_text_with_retry oracle label 3) := by
  have hformula : number_field_answer oracle label =
      (if ["year", "experience", "salary"].any
          (fun w => strContains (pyLower label) w) = true then "0"
       else if py_isdigit (answer_text_with_retry oracle label 3) = true then
         answer_text_with_retry oracle label 3
       else "0") := rfl
  refine ⟨?_, ?_, ?_, ?_⟩
  · rw [hformula]
    by_cases hkw : (["year", "experience", "salary"].any
        (fun w => strContains (pyLower label) w)) = true
    · rw [if_pos hkw]; decide
    · rw [if_neg hkw]
      by_cases hdig : py_isdigit (answer_text_with_retry oracle label 3) = true
      · rw [if_pos hdig]; exact hdig
      · rw [if_neg hdig]; decide
  · intro hk
    rw [hformula, if_pos hk]
  · intro hd
    rw [hformula]
    by_cases hkw : (["year", "experience", "salary"].any
        (fun w => strContains (pyLower label) w)) = true
    · rw [if_pos hkw]
    · rw [if_neg hkw, if_neg (by simp [hd])]
  · intro hkf hdt
    rw [hformula, if_neg (by simp [hkf]), if_pos hdt]

/-- Witness for C9: a label naming years of experience gets the literal
"0" regardless of the language model. -/
theorem number_fill_only_digits_wit :
    number_field_answer (fun _ => none) "Years of experience" = "0" :=
  (number_fill_only_digits (fun _ => none) "Years of experience").2.1 (by decide)

/-- Helper: reading the first radio of group `name`, when the find goes
past a radio of a different group. -/
theorem first_radio_checked_cons_ne (r : RadioInput) (rest : List RadioInput)
    (name : String) (h : r.name ≠ name) :
    first_radio_checked (r :: rest) name = first_radio_checked rest name := by
  unfold first_radio_checked
  rw [List.find?_cons_of_neg rest (by simp [h])]

/-- Helper: reading the first radio of group `name`, when the head radio is
of that group. -/
theorem first_radio_checked_cons_eq (r : RadioInput) (rest : List RadioInput)
    (name : String) (h : r.name = name) :
    first_radio_checked (r :: rest) name = r.checked := by
  unfold first_radio_checked
  rw [List.find?_cons_of_pos rest (by simp [h])]

/-- Helper: a radio group is never filled when its first radio in document
order is checked, or when its name is already in the processed set. -/
theorem radio_skip_aux (name : String) :
    ∀ (radios : List RadioInput) (processed : List String),
      (first_radio_checked radios name = true ∨ name ∈ processed) →
      name ∉ radio_groups_filled radios processed := by
  intro radios
  induction radios with
  | nil =>
    intro processed _
    simp [radio_groups_filled]
  | cons r rest ih =>
    intro processed hyp
    by_cases hp : (processed.contains r.name) = true
    · have hstep : radio_groups_filled (r :: rest) processed =
          radio_groups_filled rest processed := by
        simp only [radio_groups_filled, if_pos hp]
      rw [hstep]
      apply ih
      rcases hyp with hfc | hpn
      · by_cases hname : r.name = name
        · right
          rw [← hname]
          exact List.elem_iff.mp hp
        · left
          rw [first_radio_checked_cons_ne r rest name hname] at hfc
          exact hfc
      · right; exact hpn
    · by_cases hchk : r.checked = true
      · have hstep : radio_groups_filled (r :: rest) processed =
            radio_groups_filled rest (r.name :: processed) := by
          simp only [radio_groups_filled, if_neg hp, if_pos hchk]
        rw [hstep]
        apply ih
        rcases hyp with hfc | hpn
        · by_cases hname : r.name = name
          · right; rw [hname]; exact List.mem_cons_self _ _
          · left
            rw [first_radio_checked_cons_ne r rest name hname] at hfc
            exact hfc
        · right; exact List.mem_cons_of_mem _ hpn
      · have hname : r.name ≠ name := by
          intro hname
          rcases hyp with hfc | hpn
          · rw [first_radio_checked_cons_eq r rest name hname] at hfc
            exact hchk hfc
          · exact hp (List.elem_iff.mpr (hname ▸ hpn))
        have hstep : radio_groups_filled (r :: rest) processed =
            r.name :: radio_groups_filled rest (r.name :: processed) := by
          simp only [radio_groups_filled, if_neg hp, if_neg hchk]
        rw [hstep]
        intro hmem
        rcases List.mem_cons.mp hmem with hhead | htail
        · exact hname hhead.symm
        · refine ih (r.name :: processed) ?_ htail
          rcases hyp with hfc | hpn
          · left
            rw [first_radio_checked_cons_ne r rest name hname] at hfc
            exact hfc
          · right; exact List.mem_cons_of_mem _ hpn

/-- Claim C10, counterexample: a radio group can already have a checked
button and still be re-processed.  In the group `g` below the checked
button is the second radio; the loop of `process_form_fields` tests only
the first radio of the group, finds it unchecked, and enters the fill
path; with answer "Yes" the fill step then checks radio 0, changing the
group's existing selection (radio 1). -/
theorem radio_prefilled_not_skipped :
    group_has_checked
      [⟨"g", false, some "Yes"⟩, ⟨"g", true, some "No"⟩] "g" = true ∧
    "g" ∈ radio_groups_filled
      [⟨"g", false, some "Yes"⟩, ⟨"g", true, some "No"⟩] [] ∧
    radio_fill_target
      [⟨"g", false, some "Yes"⟩, ⟨"g", true, some "No"⟩] "Yes" = some 0 := by
  refine ⟨rfl, ?_, rfl⟩
  decide

/-- Claim C10, amended: `process_form_fields` never fills a select whose
stripped current value is non-blank, never fills a text or number input
that is non-empty according to `is_field_empty`, and never re-processes a
radio group whose FIRST radio in document order is checked (a group whose
checked button is not its first radio may be re-processed, as the
counterexample shows). -/
theorem form_fields_skip_prefilled (v : String) (rv : Option String)
    (radios : List RadioInput) (name : String) :
    (pyStrip v ≠ "" → select_should_fill v = false) ∧
    (is_field_empty rv = false → input_should_fill rv = false) ∧
    (first_radio_checked radios name = true →
      name ∉ radio_groups_filled radios []) := by
  refine ⟨?_, ?_, ?_⟩
  · intro hv
    unfold select_should_fill
    cases h : (pyStrip v == "")
    · rfl
    · exact absurd (by simpa using h) hv
  · intro h
    unfold input_should_fill
    exact h
  · intro hfc
    exact radio_skip_aux name radios [] (Or.inl hfc)

/-- Witness for C10's amended theorem: a non-blank select value, a
non-empty text value, and a radio group whose first radio is checked are
all left alone. -/
theorem form_fields_skip_prefilled_wit :
    select_should_fill " x " = false ∧
    input_should_fill (some "x") = false ∧
    "g" ∉ radio_groups_filled [⟨"g", true, some "Yes"⟩] [] :=
  ⟨(form_fields_skip_prefilled " x " (some "x") [⟨"g", true, some "Yes"⟩] "g").1
      (by decide),
   (form_fields_skip_prefilled " x " (some "x") [⟨"g", true, some "Yes"⟩] "g").2.1
      (by decide),
   (form_fields_skip_prefilled " x " (some "x") [⟨"g", true, some "Yes"⟩] "g").2.2
      (by decide)⟩
